import Mathlib

/-!
Shallow embedding of the crypto-alpha market-intelligence agent
(`src/index.ts`) and proofs about its aggregation-and-signal pipeline.

Modelling conventions, applied uniformly:
- JavaScript numbers are embedded as `Rat` (sentiment scores, which the
  program obtains through `parseInt`, as `Int`).  A raw JSON field that the
  program reads through optional chaining (`a?.b`) is an `Option` field, and
  each `?.` step is an `Option.bind`.
- JavaScript truthiness defaulting on strings (`x || 'd'`, where the empty
  string is falsy) is `jsOrStr`; comparisons against possibly-`undefined`
  numbers (`undefined > n` and `undefined < n` are both false) are `jsGtO` /
  `jsLtO`.
- `Number.prototype.toFixed` decimal rendering is modelled by exact rational
  rounding (`jsToFixed1` / `jsToFixed2`); no property proved below depends on
  the rendered digits.  `String.prototype.toLowerCase`/`toUpperCase` are
  modelled on the ASCII range (`jsToLowerCase` / `jsToUpperCase`).
- A JavaScript exception escaping a handler (an uncaught `TypeError`, or a
  rejected promise propagating through `Promise.all`) is `Except.error`;
  a structured JSON response is `Except.ok` of the response record.
  `Promise.all` settles every promise, but the first rejection becomes the
  rejection of the whole; the model propagates failures in source order,
  which is observationally equivalent for the properties proved here.
- Response `timestamp` fields (`new Date().toISOString()`) and the date
  strings of the fear-greed history are omitted: they are wall-clock output
  that no claim concerns.
-/

/-- JavaScript `v || d` on an optional string: `undefined` and the empty
string are falsy and fall back to the default. -/
def jsOrStr (v : Option String) (d : String) : String :=
  match v with
  | some s => if s = "" then d else s
  | none => d

/-- JavaScript `v > b` where `v` may be `undefined` (then the comparison is
false). -/
def jsGtO (v : Option Rat) (b : Rat) : Bool :=
  match v with
  | some x => decide (b < x)
  | none => false

/-- JavaScript `v < b` where `v` may be `undefined` (then the comparison is
false). -/
def jsLtO (v : Option Rat) (b : Rat) : Bool :=
  match v with
  | some x => decide (x < b)
  | none => false

/-- ASCII lower-casing of one character, as JavaScript `toLowerCase` acts on
the identifiers this program handles. -/
def lowerChar (c : Char) : Char :=
  if c.isUpper then Char.ofNat (c.toNat + 32) else c

/-- ASCII upper-casing of one character. -/
def upperChar (c : Char) : Char :=
  if c.isLower then Char.ofNat (c.toNat - 32) else c

/-- Model of JavaScript `String.prototype.toLowerCase` (ASCII range). -/
def jsToLowerCase (s : String) : String :=
  String.mk (s.data.map lowerChar)

/-- Model of JavaScript `String.prototype.toUpperCase` (ASCII range). -/
def jsToUpperCase (s : String) : String :=
  String.mk (s.data.map upperChar)

/-- Model of JavaScript `toFixed(1)`: round to one decimal digit and render.
The exact digits are irrelevant to every property proved in this file. -/
def jsToFixed1 (q : Rat) : String :=
  let n : Int := (q * 10 + 1 / 2).floor
  let a := n.natAbs
  (if n < 0 then "-" else "") ++ toString (a / 10) ++ "." ++ toString (a % 10)

/-- Model of JavaScript `toFixed(2)`: round to two decimal digits and render. -/
def jsToFixed2 (q : Rat) : String :=
  let n : Int := (q * 100 + 1 / 2).floor
  let a := n.natAbs
  (if n < 0 then "-" else "") ++ toString (a / 100) ++ "." ++
    (if a % 100 < 10 then "0" else "") ++ toString (a % 100)

/-- JavaScript template rendering of a possibly-`undefined` string (an absent
value prints as the literal text `undefined`). -/
def jsStrOrUndefined (v : Option String) : String :=
  v.getD "undefined"

/-- The needle occurs somewhere inside the haystack (stated over the
underlying character lists). -/
def strContains (hay needle : String) : Prop :=
  ∃ a b, hay.data = a ++ needle.data ++ b

-- ===========================================================================
-- Data model: raw upstream payload shapes, restricted to the fields the
-- program reads, every one optional exactly as the source's `?.` chains
-- allow.
-- ===========================================================================

/-- One entry of the alternative.me fear-greed payload (`data[i]`).  The raw
`value` is a numeric string which the program reads through `parseInt`; the
embedding carries the parsed integer directly. -/
structure FGEntry where
  value : Option Int
  value_classification : Option String
  timestamp : Option Int
deriving Repr, DecidableEq

/-- The fear-greed payload: `{ data: [...] }`, every level possibly absent. -/
structure FearGreedRaw where
  data : Option (List FGEntry)
deriving Repr, DecidableEq

/-- Per-currency price-change record (`price_change_percentage_24h.usd`). -/
structure PriceChangeUsd where
  usd : Option Rat
deriving Repr, DecidableEq

/-- The `item.data` sub-record of one trending coin. -/
structure TrendingItemData where
  price : Option Rat
  price_change_percentage_24h : Option PriceChangeUsd
  market_cap : Option String
deriving Repr, DecidableEq

/-- The `item` sub-record of one trending coin. -/
structure TrendingItem where
  symbol : Option String
  name : Option String
  market_cap_rank : Option Int
  data : Option TrendingItemData
deriving Repr, DecidableEq

/-- One element of the trending feed's `coins` array. -/
structure TrendingCoin where
  item : Option TrendingItem
deriving Repr, DecidableEq

/-- The `data` sub-record of one trending NFT. -/
structure NftData where
  floor_price : Option Rat
  floor_price_in_usd_24h_percentage_change : Option Rat
deriving Repr, DecidableEq

/-- One element of the trending feed's `nfts` array. -/
structure NftRaw where
  name : Option String
  data : Option NftData
deriving Repr, DecidableEq

/-- The coingecko trending payload: `{ coins: [...], nfts: [...] }`. -/
structure TrendingRaw where
  coins : Option (List TrendingCoin)
  nfts : Option (List NftRaw)
deriving Repr, DecidableEq

/-- One entry of the coingecko markets snapshot, restricted to the fields the
program reads (`current_price`, `price_change_percentage_24h`). -/
structure MarketCoin where
  current_price : Option Rat
  price_change_percentage_24h : Option Rat
deriving Repr, DecidableEq

/-- One raw protocol entry of the api.llama.fi `protocols` payload. -/
structure RawProtocol where
  name : Option String
  category : Option String
  tvl : Option Rat
  change_1d : Option Rat
  change_7d : Option Rat
  chains : Option (List String)
  url : Option String
deriving Repr, DecidableEq

/-- Normalized protocol record produced by `fetchTopDeFi`'s `.map`. -/
structure DeFiProtocol where
  name : Option String
  category : Option String
  tvl : Option Rat
  tvlChange24h : Option Rat
  tvlChange7d : Option Rat
  chains : List String
  url : Option String
deriving Repr, DecidableEq

/-- Raw payload of the DEX-volume overview endpoint. -/
structure DexVolumeRaw where
  total24h : Option Rat
  change_1d : Option Rat
  change_7d : Option Rat
  totalAllTime : Option Rat
deriving Repr, DecidableEq

/-- Normalized DEX-volume record produced by `fetchDexVolume`. -/
structure DexVolume where
  total24h : Option Rat
  change24h : Option Rat
  change7d : Option Rat
  totalAllTime : Option Rat
deriving Repr, DecidableEq

-- ===========================================================================
-- Source Client transforms (the pure part of the fetch helpers).
-- ===========================================================================

/-- The `(p.tvl || 0)` key used by `fetchTopDeFi`'s sort comparator. -/
def tvlOr0 (p : RawProtocol) : Rat :=
  p.tvl.getD 0

/-- Pure transform of `fetchTopDeFi` (src/index.ts lines 52-68): keep entries
with `tvl > 0`, sort descending by `(tvl || 0)` (JavaScript `sort` is stable;
modelled by a stable merge sort), keep the first 10, and normalize each
record.  `p.chains?.slice(0, 5) || []` keeps at most five chains. -/
def fetchTopDeFiTransform (protocols : List RawProtocol) : List DeFiProtocol :=
  ((((protocols.filter (fun p => jsGtO p.tvl 0)).mergeSort
        (fun a b => decide (tvlOr0 b ≤ tvlOr0 a))).take 10).map
    (fun p =>
      { name := p.name
        category := p.category
        tvl := p.tvl
        tvlChange24h := p.change_1d
        tvlChange7d := p.change_7d
        chains := (p.chains.map (List.take 5)).getD []
        url := p.url }))

/-- Pure transform of `fetchDexVolume` (src/index.ts lines 70-81). -/
def fetchDexVolumeTransform (d : DexVolumeRaw) : DexVolume :=
  { total24h := d.total24h
    change24h := d.change_1d
    change7d := d.change_7d
    totalAllTime := d.totalAllTime }

/-- Per-currency field of the coin-detail payload (`market_data.*.usd`). -/
structure UsdField where
  usd : Option Rat
deriving Repr, DecidableEq

/-- Per-currency date field (`ath_date.usd`). -/
structure UsdDateField where
  usd : Option String
deriving Repr, DecidableEq

/-- The `market_data` sub-record of the coin-detail payload. -/
structure TokenMarketData where
  current_price : Option UsdField
  price_change_percentage_24h : Option Rat
  price_change_percentage_7d : Option Rat
  market_cap : Option UsdField
  total_volume : Option UsdField
  ath : Option UsdField
  ath_date : Option UsdDateField
  ath_change_percentage : Option UsdField
deriving Repr, DecidableEq

/-- The `description` sub-record of the coin-detail payload. -/
structure DescriptionField where
  en : Option String
deriving Repr, DecidableEq

/-- Raw coin-detail payload, restricted to the fields the program reads. -/
structure RawTokenData where
  id : Option String
  symbol : Option String
  name : Option String
  market_data : Option TokenMarketData
  market_cap_rank : Option Int
  categories : Option (List String)
  description : Option DescriptionField
deriving Repr, DecidableEq

/-- Normalized token record produced by `fetchTokenInfo`. -/
structure TokenInfo where
  id : Option String
  symbol : Option String
  name : Option String
  price : Option Rat
  priceChange24h : Option Rat
  priceChange7d : Option Rat
  marketCap : Option Rat
  marketCapRank : Option Int
  volume24h : Option Rat
  ath : Option Rat
  athDate : Option String
  athChangePercentage : Option Rat
  categories : List String
  description : String
deriving Repr, DecidableEq

/-- Pure transform of `fetchTokenInfo` (src/index.ts lines 83-105): `upstream
= none` models a non-ok HTTP status (`if (!res.ok) throw ...`), which the
function turns into a thrown `Token <id> not found` error; otherwise the raw
payload is normalized field by field. -/
def fetchTokenInfoTransform (tokenId : String) (upstream : Option RawTokenData) :
    Except String TokenInfo :=
  match upstream with
  | none => Except.error ("Token " ++ tokenId ++ " not found")
  | some data =>
      Except.ok
        { id := data.id
          symbol := data.symbol.map jsToUpperCase
          name := data.name
          price := (data.market_data.bind TokenMarketData.current_price).bind UsdField.usd
          priceChange24h := data.market_data.bind TokenMarketData.price_change_percentage_24h
          priceChange7d := data.market_data.bind TokenMarketData.price_change_percentage_7d
          marketCap := (data.market_data.bind TokenMarketData.market_cap).bind UsdField.usd
          marketCapRank := data.market_cap_rank
          volume24h := (data.market_data.bind TokenMarketData.total_volume).bind UsdField.usd
          ath := (data.market_data.bind TokenMarketData.ath).bind UsdField.usd
          athDate := (data.market_data.bind TokenMarketData.ath_date).bind UsdDateField.usd
          athChangePercentage :=
            (data.market_data.bind TokenMarketData.ath_change_percentage).bind UsdField.usd
          categories := ((data.categories).map (List.take 5)).getD []
          description := ((data.description.bind DescriptionField.en).map (fun s => s.take 500)).getD "" }

-- ===========================================================================
-- Signal Engine (`buildAlphaSignals`, src/index.ts lines 107-169).
-- ===========================================================================

/-- One derived alpha signal, with the exact fields the program pushes.  The
`asset` field is only present on narrative and protocol signals. -/
structure AlphaSignal where
  type : String
  asset : Option String := none
  title : String
  details : String
  confidence : String
  actionable : Bool
deriving Repr, DecidableEq

/-- The sentiment score read by the Signal Engine:
`parseInt(fearGreed?.data?.[0]?.value || '50')`. -/
def fgValueOf (fearGreed : Option FearGreedRaw) : Int :=
  (((fearGreed.bind FearGreedRaw.data).bind List.head?).bind FGEntry.value).getD 50

/-- The qualitative class read by the Signal Engine:
`fearGreed?.data?.[0]?.value_classification || 'Neutral'`. -/
def fgClassOf (fearGreed : Option FearGreedRaw) : String :=
  jsOrStr (((fearGreed.bind FearGreedRaw.data).bind List.head?).bind
    FGEntry.value_classification) "Neutral"

/-- Rule 1, sentiment extremes (lines 110-128): `fgValue <= 25` pushes a
buy-zone signal, else `fgValue >= 75` pushes a caution-zone signal. -/
def sentimentRule (fearGreed : Option FearGreedRaw) : List AlphaSignal :=
  if fgValueOf fearGreed ≤ 25 then
    [{ type := "sentiment"
       title := fgClassOf fearGreed ++ " (" ++ toString (fgValueOf fearGreed) ++
         ") - Potential Buy Zone"
       details := "Extreme fear often precedes market reversals. Consider accumulation."
       confidence := if fgValueOf fearGreed ≤ 15 then "high" else "medium"
       actionable := true }]
  else if 75 ≤ fgValueOf fearGreed then
    [{ type := "sentiment"
       title := fgClassOf fearGreed ++ " (" ++ toString (fgValueOf fearGreed) ++ ") - Caution Zone"
       details := "Extreme greed often precedes corrections. Consider taking profits."
       confidence := if 85 ≤ fgValueOf fearGreed then "high" else "medium"
       actionable := true }]
  else []

/-- The 24h change of the primary (index 0) market asset:
`topCoins?.[0]?.price_change_percentage_24h`. -/
def primaryChange24h (topCoins : Option (List MarketCoin)) : Option Rat :=
  (topCoins.bind List.head?).bind MarketCoin.price_change_percentage_24h

/-- Rule 2, volume/price divergence (lines 130-138):
`dexVolume?.change24h > 5 && topCoins?.[0]?.price_change_percentage_24h < -2`. -/
def whaleRule (topCoins : Option (List MarketCoin)) (dexVolume : Option DexVolume) :
    List AlphaSignal :=
  if jsGtO (dexVolume.bind DexVolume.change24h) 5 && jsLtO (primaryChange24h topCoins) (-2) then
    [{ type := "whale"
       title := "Volume/Price Divergence - Smart Money Repositioning"
       details := "DEX volume up " ++ jsToFixed1 ((dexVolume.bind DexVolume.change24h).getD 0) ++
         "% while prices down. Potential accumulation."
       confidence := "medium"
       actionable := true }]
  else []

/-- The coin list scanned by rule 3: `trending?.coins || []`. -/
def trendingCoinsOf (trending : Option TrendingRaw) : List TrendingCoin :=
  (trending.bind TrendingRaw.coins).getD []

/-- The per-coin 24h change read by rule 3:
`coin.item?.data?.price_change_percentage_24h?.usd`. -/
def trendingPriceChange (coin : TrendingCoin) : Option Rat :=
  ((coin.item.bind TrendingItem.data).bind
    TrendingItemData.price_change_percentage_24h).bind PriceChangeUsd.usd

/-- JavaScript template rendering of `coin.item?.market_cap_rank || '?'`
(zero is falsy). -/
def jsRankStr (rank : Option Int) : String :=
  match rank with
  | some r => if r = 0 then "?" else toString r
  | none => "?"

/-- The loop body of rule 3 for one trending coin: a narrative signal when its
24h change is strictly above 10, nothing otherwise. -/
def narrativeSignalOf? (coin : TrendingCoin) : Option AlphaSignal :=
  match trendingPriceChange coin with
  | some priceChange =>
      if 10 < priceChange then
        some
          { type := "narrative"
            asset := (coin.item.bind TrendingItem.symbol).map jsToUpperCase
            title := jsStrOrUndefined (coin.item.bind TrendingItem.name) ++ " trending +" ++
              jsToFixed1 priceChange ++ "%"
            details := "Rank #" ++ jsRankStr (coin.item.bind TrendingItem.market_cap_rank) ++
              ", strong momentum against market"
            confidence := "medium"
            actionable := true }
      else none
  | none => none

/-- Rule 3, narrative momentum (lines 140-153): loop over
`trendingCoins.slice(0, 3)`. -/
def narrativeRule (trending : Option TrendingRaw) : List AlphaSignal :=
  ((trendingCoinsOf trending).take 3).filterMap narrativeSignalOf?

/-- JavaScript template rendering of `${(protocol.tvl / 1e9).toFixed(2)}`
where `tvl` may be `undefined` (then the arithmetic yields `NaN`). -/
def jsBillionsStr (tvl : Option Rat) : String :=
  match tvl with
  | some q => jsToFixed2 (q / 1000000000)
  | none => "NaN"

/-- The loop body of rule 4 for one normalized protocol: a protocol signal
when its 7-day TVL change is strictly above 10, nothing otherwise. -/
def protocolSignalOf? (protocol : DeFiProtocol) : Option AlphaSignal :=
  match protocol.tvlChange7d with
  | some ch =>
      if 10 < ch then
        some
          { type := "protocol"
            asset := protocol.name
            title := jsStrOrUndefined protocol.name ++ " TVL up " ++ jsToFixed1 ch ++ "% weekly"
            details := "Category: " ++ jsStrOrUndefined protocol.category ++ ", TVL: $" ++
              jsBillionsStr protocol.tvl ++ "B"
            confidence := "medium"
            actionable := true }
      else none
  | none => none

/-- Rule 4, protocol TVL growth (lines 155-166): loop over `defi.slice(0, 3)`.
Unlike every other input, `defi` is dereferenced without optional chaining. -/
def protocolRule (defiList : List DeFiProtocol) : List AlphaSignal :=
  (defiList.take 3).filterMap protocolSignalOf?

/-- The uncaught JavaScript `TypeError` raised by `defi.slice(0, 3)` when
`defi` is `null`. -/
def nullDefiTypeError : String :=
  "TypeError: Cannot read properties of null at defi.slice"

/-- `buildAlphaSignals` (lines 107-169).  The `defi` argument is read as
`defi.slice(0, 3)` with no optional chaining, so a `null` `defi` throws a
`TypeError` (the signals pushed before the throw are discarded with the
stack frame); every other rule tolerates absent input. -/
def buildAlphaSignals (fearGreed : Option FearGreedRaw) (trending : Option TrendingRaw)
    (topCoins : Option (List MarketCoin)) (defi : Option (List DeFiProtocol))
    (dexVolume : Option DexVolume) : Except String (List AlphaSignal) :=
  match defi with
  | none => Except.error nullDefiTypeError
  | some defiList =>
      Except.ok (sentimentRule fearGreed ++ whaleRule topCoins dexVolume ++
        narrativeRule trending ++ protocolRule defiList)

-- ===========================================================================
-- Endpoint handlers (pure parts).
-- ===========================================================================

/-- The `current` section of the fear-greed endpoint response. -/
structure FearGreedCurrent where
  value : Int
  classification : String
deriving Repr, DecidableEq

/-- One entry of the fear-greed endpoint's `history` (the `date` rendering of
the raw timestamp is omitted, see the header note). -/
structure FGHistoryEntry where
  value : Option Int
  classification : Option String
deriving Repr, DecidableEq

/-- Output of the free fear-greed endpoint. -/
structure FearGreedOutput where
  current : FearGreedCurrent
  history : List FGHistoryEntry
  interpretation : String
deriving Repr, DecidableEq

/-- The fear-greed handler (src/index.ts lines 245-267): note the
classification default is the string `Unknown`, and the interpretation is
keyed off the same 25/75 cut points as rule 1. -/
def fearGreedHandlerOutput (data : FearGreedRaw) : FearGreedOutput :=
  let v := ((data.data.bind List.head?).bind FGEntry.value).getD 50
  { current :=
      { value := v
        classification := jsOrStr ((data.data.bind List.head?).bind
          FGEntry.value_classification) "Unknown" }
    history := ((data.data).map (List.map (fun d =>
      { value := d.value, classification := d.value_classification : FGHistoryEntry }))).getD []
    interpretation :=
      if v ≤ 25 then "Extreme fear often signals buying opportunities"
      else if 75 ≤ v then "Extreme greed may signal market tops"
      else "Market sentiment is neutral to moderate" }

/-- The `marketContext` section of the daily-alpha digest (lines 293-302):
note the classification default is the string `Unknown`. -/
structure MarketContext where
  fearGreedIndex : Int
  fearGreedClass : String
  btcPrice : Option Rat
  btcChange24h : Option Rat
  ethPrice : Option Rat
  ethChange24h : Option Rat
  dexVolume24h : Option Rat
  dexVolumeChange : Option Rat
deriving Repr, DecidableEq

/-- Builds the digest's `marketContext` from the settled source values. -/
def marketContextOf (fearGreed : Option FearGreedRaw) (topCoins : Option (List MarketCoin))
    (dexVolume : Option DexVolume) : MarketContext :=
  { fearGreedIndex := fgValueOf fearGreed
    fearGreedClass := jsOrStr (((fearGreed.bind FearGreedRaw.data).bind List.head?).bind
      FGEntry.value_classification) "Unknown"
    btcPrice := (topCoins.bind List.head?).bind MarketCoin.current_price
    btcChange24h := (topCoins.bind List.head?).bind MarketCoin.price_change_percentage_24h
    ethPrice := (topCoins.bind (fun l => l[1]?)).bind MarketCoin.current_price
    ethChange24h := (topCoins.bind (fun l => l[1]?)).bind MarketCoin.price_change_percentage_24h
    dexVolume24h := dexVolume.bind DexVolume.total24h
    dexVolumeChange := dexVolume.bind DexVolume.change24h }

/-- One entry of the digest's `trending` section (lines 304-308). -/
structure TrendingBrief where
  symbol : Option String
  name : Option String
  rank : Option Int
deriving Repr, DecidableEq

/-- One entry of the digest's `topDeFi` section (lines 309-313). -/
structure DeFiBrief where
  name : Option String
  tvl : String
  category : Option String
deriving Repr, DecidableEq

/-- The digest (daily-alpha) response body, timestamp omitted. -/
structure DailyAlphaOutput where
  summary : String
  marketContext : MarketContext
  signals : List AlphaSignal
  trending : List TrendingBrief
  topDeFi : List DeFiBrief
  disclaimer : String
deriving Repr, DecidableEq

/-- The settled results of the five upstream fetch helpers: `Except.error`
models a rejected promise (network failure, thrown parse error); the fetch
helpers themselves contain no error handling. -/
structure SourceFetches where
  fearGreed : Except String FearGreedRaw
  trending : Except String TrendingRaw
  topCoins : Except String (List MarketCoin)
  defi : Except String (List RawProtocol)
  dexVolume : Except String DexVolumeRaw
deriving Repr

/-- The daily-alpha handler (lines 270-317).  A source group absent from
`sources` contributes `null`; a selected source whose fetch rejected rejects
the whole `Promise.all`, and the handler has no catch, so the rejection (or a
`TypeError` thrown by `buildAlphaSignals`) escapes as an operation-level
failure (`Except.error`); an `Except.ok` is the structured
`status: 'succeeded'` response. -/
def dailyAlphaHandler (sources : List String) (f : SourceFetches) :
    Except String DailyAlphaOutput := do
  let fearGreed ← if sources.contains "feargreed" then f.fearGreed.map some else pure none
  let trending ← if sources.contains "coingecko" then f.trending.map some else pure none
  let topCoins ← if sources.contains "coingecko" then f.topCoins.map some else pure none
  let defi ← if sources.contains "defillama" then
      f.defi.map (fun raw => some (fetchTopDeFiTransform raw)) else pure none
  let dexVolume ← if sources.contains "defillama" then
      f.dexVolume.map (fun raw => some (fetchDexVolumeTransform raw)) else pure none
  let signals ← buildAlphaSignals fearGreed trending topCoins defi dexVolume
  Except.ok
    { summary :=
        if 0 < signals.length then toString signals.length ++ " alpha signals detected"
        else "No strong signals - market neutral"
      marketContext := marketContextOf fearGreed topCoins dexVolume
      signals := signals
      trending := ((trending.bind TrendingRaw.coins).map (fun cs => (cs.take 5).map (fun c =>
        { symbol := (c.item.bind TrendingItem.symbol).map jsToUpperCase
          name := c.item.bind TrendingItem.name
          rank := c.item.bind TrendingItem.market_cap_rank : TrendingBrief }))).getD []
      topDeFi := (defi.map (fun ps => (ps.take 5).map (fun p =>
        { name := p.name
          tvl := "$" ++ jsBillionsStr p.tvl ++ "B"
          category := p.category : DeFiBrief }))).getD []
      disclaimer := "Not financial advice. DYOR." }

/-- The error payload returned by the token-intel handler's catch branch. -/
structure TokenErrorOutput where
  error : String
  suggestion : String
deriving Repr, DecidableEq

/-- The token-intel response: the handler always returns a structured body;
`failed` carries the catch branch's payload together with
`status: 'failed'`. -/
inductive TokenIntelResult where
  | succeeded (token : TokenInfo) (fromATH : String) (momentum : String)
  | failed (output : TokenErrorOutput)
deriving Repr, DecidableEq

/-- The literal `status` field of the token-intel response. -/
def tokenIntelStatus : TokenIntelResult → String
  | TokenIntelResult.succeeded _ _ _ => "succeeded"
  | TokenIntelResult.failed _ => "failed"

/-- The id actually looked up by the token-intel handler (lines 372-377):
`(input.token || 'bitcoin').toLowerCase()`, the empty string being falsy. -/
def effectiveTokenId (inputToken : Option String) : String :=
  jsToLowerCase (jsOrStr inputToken "bitcoin")

/-- JavaScript template rendering of `v?.toFixed(1)` (absent prints as the
literal text `undefined`). -/
def jsToFixed1OrUndefined (v : Option Rat) : String :=
  match v with
  | some q => jsToFixed1 q
  | none => "undefined"

/-- The token-intel handler (lines 371-397): lookup failure is caught and
returned as a structured `status: 'failed'` payload with a corrective
suggestion. -/
def tokenIntelHandler (inputToken : Option String) (upstream : Option RawTokenData) :
    TokenIntelResult :=
  match fetchTokenInfoTransform (effectiveTokenId inputToken) upstream with
  | Except.ok data =>
      TokenIntelResult.succeeded data
        (jsToFixed1OrUndefined data.athChangePercentage ++ "%")
        (match data.priceChange7d with
         | some p => if 0 < p then "bullish" else if p < -10 then "bearish" else "neutral"
         | none => "neutral")
  | Except.error msg =>
      TokenIntelResult.failed
        { error := msg, suggestion := "Use CoinGecko token ID (e.g., bitcoin, ethereum)" }

/-- One entry of the trending endpoint's `coins` section (lines 326-333). -/
structure TrendingCoinOut where
  symbol : Option String
  name : Option String
  rank : Option Int
  price : Option Rat
  priceChange24h : Option Rat
  marketCap : Option String
deriving Repr, DecidableEq

/-- One entry of the trending endpoint's `nfts` section (lines 334-338). -/
structure TrendingNftOut where
  name : Option String
  floorPrice : Option Rat
  change24h : Option Rat
deriving Repr, DecidableEq

/-- The trending endpoint response body, timestamp omitted. -/
structure TrendingOutput where
  coins : List TrendingCoinOut
  nfts : List TrendingNftOut
deriving Repr, DecidableEq

/-- The pure part of the trending handler (lines 319-341): top 10 coins and
top 5 NFTs, each section defaulting to `[]` when its array is absent. -/
def trendingHandlerOutput (data : TrendingRaw) : TrendingOutput :=
  { coins := ((data.coins).map (fun cs => (cs.take 10).map (fun coin =>
      { symbol := (coin.item.bind TrendingItem.symbol).map jsToUpperCase
        name := coin.item.bind TrendingItem.name
        rank := coin.item.bind TrendingItem.market_cap_rank
        price := (coin.item.bind TrendingItem.data).bind TrendingItemData.price
        priceChange24h := trendingPriceChange coin
        marketCap := (coin.item.bind TrendingItem.data).bind TrendingItemData.market_cap
        : TrendingCoinOut }))).getD []
    nfts := ((data.nfts).map (fun ns => (ns.take 5).map (fun n =>
      { name := n.name
        floorPrice := (n.data).bind NftData.floor_price
        change24h := (n.data).bind NftData.floor_price_in_usd_24h_percentage_change
        : TrendingNftOut }))).getD [] }

/-- The `dexVolume` section of the defi-stats response (lines 354-358). -/
structure DexVolumeOut where
  total24h : String
  change24h : String
  change7d : String
deriving Repr, DecidableEq

/-- One entry of the defi-stats `topProtocols` section (lines 359-366). -/
structure DefiProtocolOut where
  name : Option String
  category : Option String
  tvl : String
  change24h : String
  change7d : String
  chains : List String
deriving Repr, DecidableEq

/-- The defi-stats response body, timestamp omitted. -/
structure DefiStatsOutput where
  dexVolume : DexVolumeOut
  topProtocols : List DefiProtocolOut
deriving Repr, DecidableEq

/-- The pure part of the defi-stats handler (lines 343-369). -/
def defiStatsHandlerOutput (protocols : List DeFiProtocol) (dexVolume : DexVolume) :
    DefiStatsOutput :=
  { dexVolume :=
      { total24h := "$" ++ jsBillionsStr dexVolume.total24h ++ "B"
        change24h := jsToFixed1OrUndefined dexVolume.change24h ++ "%"
        change7d := jsToFixed1OrUndefined dexVolume.change7d ++ "%" }
    topProtocols := protocols.map (fun p =>
      { name := p.name
        category := p.category
        tvl := "$" ++ jsBillionsStr p.tvl ++ "B"
        change24h := jsToFixed1OrUndefined p.tvlChange24h ++ "%"
        change7d := jsToFixed1OrUndefined p.tvlChange7d ++ "%"
        chains := p.chains }) }

/-- The sentiment-index operation (lines 245-267): `await fetchFearGreed()`
with no catch, so a rejected fetch rejects the whole handler. -/
def fearGreedEndpoint (fetched : Except String FearGreedRaw) :
    Except String FearGreedOutput :=
  fetched.map fearGreedHandlerOutput

/-- The trending operation (lines 319-341): `await fetchTrending()` with no
catch, so a rejected fetch rejects the whole handler. -/
def trendingEndpoint (fetched : Except String TrendingRaw) :
    Except String TrendingOutput :=
  fetched.map trendingHandlerOutput

/-- The defi-stats operation (lines 343-369): `Promise.all` over the two
fetch helpers with no catch; either rejection rejects the whole handler
(failures propagate in source order, see the header note). -/
def defiStatsEndpoint (protocols : Except String (List RawProtocol))
    (dexVolume : Except String DexVolumeRaw) : Except String DefiStatsOutput := do
  let ps ← protocols
  let dv ← dexVolume
  Except.ok (defiStatsHandlerOutput (fetchTopDeFiTransform ps) (fetchDexVolumeTransform dv))

-- ===========================================================================
-- Concrete inputs used by witnesses and counterexamples.
-- ===========================================================================

/-- A minimal set of fetch outcomes in which every upstream call succeeded
(with structurally empty payloads). -/
def fetchesAllOkMinimal : SourceFetches :=
  { fearGreed := Except.ok { data := none }
    trending := Except.ok { coins := none, nfts := none }
    topCoins := Except.ok []
    defi := Except.ok []
    dexVolume := Except.ok
      { total24h := none, change_1d := none, change_7d := none, totalAllTime := none } }

/-- Fetch outcomes in which only the sentiment upstream rejected. -/
def fetchesSentimentDown : SourceFetches :=
  { fetchesAllOkMinimal with fearGreed := Except.error "sentiment upstream unavailable" }

/-- Fetch outcomes in which only the trending upstream rejected. -/
def fetchesTrendingDown : SourceFetches :=
  { fetchesAllOkMinimal with trending := Except.error "trending upstream unavailable" }

/-- A fear-greed payload whose current reading is 20 / Fear. -/
def fgScore20 : Option FearGreedRaw :=
  some { data := some [{ value := some 20, value_classification := some "Fear", timestamp := none }] }

/-- A DEX-volume record whose 24h change is +6 percent. -/
def dexUp6 : Option DexVolume :=
  some { total24h := none, change24h := some 6, change7d := none, totalAllTime := none }

/-- A market snapshot whose primary asset is down 3 percent over 24h. -/
def primaryDown3 : Option (List MarketCoin) :=
  some [{ current_price := none, price_change_percentage_24h := some (-3) }]

/-- One trending coin with the given 24h price change. -/
def trendingCoinWith (pc : Rat) : TrendingCoin :=
  { item := some
      { symbol := some "abc"
        name := some "Asset"
        market_cap_rank := some 42
        data := some
          { price := none
            price_change_percentage_24h := some { usd := some pc }
            market_cap := none } } }

/-- The spec's five-coin trending example, 24h changes 12, 8, 15, 20, 5. -/
def trendingFive : Option TrendingRaw :=
  some { coins := some [trendingCoinWith 12, trendingCoinWith 8, trendingCoinWith 15,
    trendingCoinWith 20, trendingCoinWith 5], nfts := none }

/-- The same trending feed truncated to its first three coins. -/
def trendingFirstThree : Option TrendingRaw :=
  some
    { coins := some [trendingCoinWith 12, trendingCoinWith 8, trendingCoinWith 15]
      nfts := none }

-- ===========================================================================
-- Shared lemmas about the Signal Engine.
-- ===========================================================================

theorem jsGtO_eq_true {v : Option Rat} {b : Rat} :
    jsGtO v b = true ↔ ∃ x, v = some x ∧ b < x := by
  cases v <;> simp [jsGtO]

theorem jsLtO_eq_true {v : Option Rat} {b : Rat} :
    jsLtO v b = true ↔ ∃ x, v = some x ∧ x < b := by
  cases v <;> simp [jsLtO]

theorem buildAlphaSignals_ok (fearGreed : Option FearGreedRaw) (trending : Option TrendingRaw)
    (topCoins : Option (List MarketCoin)) (defiList : List DeFiProtocol)
    (dexVolume : Option DexVolume) :
    buildAlphaSignals fearGreed trending topCoins (some defiList) dexVolume =
      Except.ok (sentimentRule fearGreed ++ whaleRule topCoins dexVolume ++
        narrativeRule trending ++ protocolRule defiList) := rfl

theorem type_of_mem_sentimentRule {fg : Option FearGreedRaw} {x : AlphaSignal}
    (hx : x ∈ sentimentRule fg) : x.type = "sentiment" := by
  unfold sentimentRule at hx
  split at hx
  · simp at hx; subst hx; rfl
  · split at hx
    · simp at hx; subst hx; rfl
    · simp at hx

theorem type_of_mem_whaleRule {tc : Option (List MarketCoin)} {dx : Option DexVolume}
    {x : AlphaSignal} (hx : x ∈ whaleRule tc dx) : x.type = "whale" := by
  unfold whaleRule at hx
  split at hx
  · simp at hx; subst hx; rfl
  · simp at hx

theorem type_of_mem_narrativeRule {tr : Option TrendingRaw} {x : AlphaSignal}
    (hx : x ∈ narrativeRule tr) : x.type = "narrative" := by
  unfold narrativeRule at hx
  obtain ⟨c, -, hc⟩ := List.mem_filterMap.mp hx
  unfold narrativeSignalOf? at hc
  split at hc
  · split at hc
    · simp at hc; subst hc; rfl
    · simp at hc
  · simp at hc

theorem confidence_of_mem_narrativeRule {tr : Option TrendingRaw} {x : AlphaSignal}
    (hx : x ∈ narrativeRule tr) : x.confidence = "medium" := by
  unfold narrativeRule at hx
  obtain ⟨c, -, hc⟩ := List.mem_filterMap.mp hx
  unfold narrativeSignalOf? at hc
  split at hc
  · split at hc
    · simp at hc; subst hc; rfl
    · simp at hc
  · simp at hc

theorem type_of_mem_protocolRule {dl : List DeFiProtocol} {x : AlphaSignal}
    (hx : x ∈ protocolRule dl) : x.type = "protocol" := by
  unfold protocolRule at hx
  obtain ⟨c, -, hc⟩ := List.mem_filterMap.mp hx
  unfold protocolSignalOf? at hc
  split at hc
  · split at hc
    · simp at hc; subst hc; rfl
    · simp at hc
  · simp at hc

theorem length_sentimentRule_le (fg : Option FearGreedRaw) :
    (sentimentRule fg).length ≤ 1 := by
  unfold sentimentRule
  split
  · simp
  · split <;> simp

theorem length_whaleRule_le (tc : Option (List MarketCoin)) (dx : Option DexVolume) :
    (whaleRule tc dx).length ≤ 1 := by
  unfold whaleRule
  split <;> simp

theorem length_narrativeRule_le (tr : Option TrendingRaw) :
    (narrativeRule tr).length ≤ 3 :=
  le_trans (List.length_filterMap_le _ _) (List.length_take_le _ _)

theorem length_protocolRule_le (dl : List DeFiProtocol) :
    (protocolRule dl).length ≤ 3 :=
  le_trans (List.length_filterMap_le _ _) (List.length_take_le _ _)

theorem filter_type_eq_nil {l : List AlphaSignal} {t u : String}
    (h : ∀ x ∈ l, AlphaSignal.type x = t) (hne : (t == u) = false) :
    l.filter (fun s => s.type == u) = [] := by
  rw [List.filter_eq_nil_iff]
  intro a ha
  rw [h a ha, hne]
  simp

theorem filter_type_eq_self {l : List AlphaSignal} {t : String}
    (h : ∀ x ∈ l, AlphaSignal.type x = t) :
    l.filter (fun s => s.type == t) = l := by
  rw [List.filter_eq_self]
  intro a ha
  rw [h a ha]
  exact beq_self_eq_true t

theorem filter_sentiment_of_ok {fearGreed : Option FearGreedRaw} {trending : Option TrendingRaw}
    {topCoins : Option (List MarketCoin)} {defiList : List DeFiProtocol}
    {dexVolume : Option DexVolume} {l : List AlphaSignal}
    (h : buildAlphaSignals fearGreed trending topCoins (some defiList) dexVolume = Except.ok l) :
    l.filter (fun s => s.type == "sentiment") = sentimentRule fearGreed := by
  rw [buildAlphaSignals_ok, Except.ok.injEq] at h
  subst h
  rw [List.filter_append, List.filter_append, List.filter_append,
    filter_type_eq_self (fun x => type_of_mem_sentimentRule),
    filter_type_eq_nil (fun x => type_of_mem_whaleRule) (by decide),
    filter_type_eq_nil (fun x => type_of_mem_narrativeRule) (by decide),
    filter_type_eq_nil (fun x => type_of_mem_protocolRule) (by decide)]
  simp

theorem filter_whale_of_ok {fearGreed : Option FearGreedRaw} {trending : Option TrendingRaw}
    {topCoins : Option (List MarketCoin)} {defiList : List DeFiProtocol}
    {dexVolume : Option DexVolume} {l : List AlphaSignal}
    (h : buildAlphaSignals fearGreed trending topCoins (some defiList) dexVolume = Except.ok l) :
    l.filter (fun s => s.type == "whale") = whaleRule topCoins dexVolume := by
  rw [buildAlphaSignals_ok, Except.ok.injEq] at h
  subst h
  rw [List.filter_append, List.filter_append, List.filter_append,
    filter_type_eq_self (fun x => type_of_mem_whaleRule),
    filter_type_eq_nil (fun x => type_of_mem_sentimentRule) (by decide),
    filter_type_eq_nil (fun x => type_of_mem_narrativeRule) (by decide),
    filter_type_eq_nil (fun x => type_of_mem_protocolRule) (by decide)]
  simp

theorem filter_narrative_of_ok {fearGreed : Option FearGreedRaw} {trending : Option TrendingRaw}
    {topCoins : Option (List MarketCoin)} {defiList : List DeFiProtocol}
    {dexVolume : Option DexVolume} {l : List AlphaSignal}
    (h : buildAlphaSignals fearGreed trending topCoins (some defiList) dexVolume = Except.ok l) :
    l.filter (fun s => s.type == "narrative") = narrativeRule trending := by
  rw [buildAlphaSignals_ok, Except.ok.injEq] at h
  subst h
  rw [List.filter_append, List.filter_append, List.filter_append,
    filter_type_eq_self (fun x => type_of_mem_narrativeRule),
    filter_type_eq_nil (fun x => type_of_mem_sentimentRule) (by decide),
    filter_type_eq_nil (fun x => type_of_mem_whaleRule) (by decide),
    filter_type_eq_nil (fun x => type_of_mem_protocolRule) (by decide)]
  simp

theorem length_filterMap_narrative (cs : List TrendingCoin) :
    (cs.filterMap narrativeSignalOf?).length =
      cs.countP (fun c => jsGtO (trendingPriceChange c) 10) := by
  induction cs with
  | nil => rfl
  | cons c cs ih =>
    rw [List.filterMap_cons, List.countP_cons]
    cases hpc : trendingPriceChange c with
    | none => simp [narrativeSignalOf?, hpc, jsGtO, ih]
    | some pc =>
      by_cases h10 : 10 < pc
      · simp [narrativeSignalOf?, hpc, h10, jsGtO, ih]
      · simp [narrativeSignalOf?, hpc, h10, jsGtO, ih]

theorem strContains_buyZone (p v : String) :
    strContains (p ++ " (" ++ v ++ ") - Potential Buy Zone") "Buy Zone" := by
  refine ⟨p.data ++ " (".data ++ v.data ++ (") - Potential " : String).data, [], ?_⟩
  have h : ((") - Potential Buy Zone" : String)).data =
      ((") - Potential " : String)).data ++ (("Buy Zone" : String)).data := by decide
  simp [String.data_append, h]

theorem strContains_cautionZone (p v : String) :
    strContains (p ++ " (" ++ v ++ ") - Caution Zone") "Caution Zone" := by
  refine ⟨p.data ++ " (".data ++ v.data ++ ((") - " : String)).data, [], ?_⟩
  have h : ((") - Caution Zone" : String)).data =
      ((") - " : String)).data ++ (("Caution Zone" : String)).data := by decide
  simp [String.data_append, h]

theorem primaryChange24h_eq_some {tc : Option (List MarketCoin)} {pc : Rat} :
    primaryChange24h tc = some pc ↔
      ∃ coins a, tc = some coins ∧ coins.head? = some a ∧
        a.price_change_percentage_24h = some pc := by
  rw [primaryChange24h, Option.bind_eq_some]
  constructor
  · rintro ⟨a, ha, h3⟩
    obtain ⟨coins, h1, h2⟩ := Option.bind_eq_some.mp ha
    exact ⟨coins, a, h1, h2, h3⟩
  · rintro ⟨coins, a, h1, h2, h3⟩
    exact ⟨a, Option.bind_eq_some.mpr ⟨coins, h1, h2⟩, h3⟩

-- ===========================================================================
-- Claim theorems.
-- ===========================================================================

/-- Claim C3: for every sentiment score fed to the Signal Engine, a score at
most 25 yields exactly one sentiment signal with a "Buy Zone" title whose
confidence is high iff the score is at most 15 (else medium); a score at
least 75 yields exactly one sentiment signal with a "Caution Zone" title
whose confidence is high iff the score is at least 85 (else medium); a score
strictly between 25 and 75 yields no sentiment signal. -/
theorem buildAlphaSignals_sentiment_cases
    (fearGreed : Option FearGreedRaw) (trending : Option TrendingRaw)
    (topCoins : Option (List MarketCoin)) (defiList : List DeFiProtocol)
    (dexVolume : Option DexVolume) (l : List AlphaSignal)
    (h : buildAlphaSignals fearGreed trending topCoins (some defiList) dexVolume = Except.ok l) :
    (fgValueOf fearGreed ≤ 25 →
      ∃ sig, l.filter (fun s => s.type == "sentiment") = [sig] ∧
        strContains sig.title "Buy Zone" ∧
        sig.confidence = (if fgValueOf fearGreed ≤ 15 then "high" else "medium")) ∧
    (75 ≤ fgValueOf fearGreed →
      ∃ sig, l.filter (fun s => s.type == "sentiment") = [sig] ∧
        strContains sig.title "Caution Zone" ∧
        sig.confidence = (if 85 ≤ fgValueOf fearGreed then "high" else "medium")) ∧
    (25 < fgValueOf fearGreed → fgValueOf fearGreed < 75 →
      l.filter (fun s => s.type == "sentiment") = []) := by
  rw [filter_sentiment_of_ok h]
  refine ⟨?_, ?_, ?_⟩
  · intro h25
    unfold sentimentRule
    rw [if_pos h25]
    exact ⟨_, rfl, strContains_buyZone _ _, rfl⟩
  · intro h75
    unfold sentimentRule
    rw [if_neg (by omega), if_pos h75]
    exact ⟨_, rfl, strContains_cautionZone _ _, rfl⟩
  · intro hlo hhi
    unfold sentimentRule
    rw [if_neg (by omega), if_neg (by omega)]

/-- Claim C3 witness: with a concrete score of 20, exactly one medium
buy-zone sentiment signal is emitted. -/
theorem buildAlphaSignals_sentiment_cases_witness :
    ∃ sig, ((sentimentRule fgScore20 ++ whaleRule none none ++ narrativeRule none ++
        protocolRule []).filter (fun s => s.type == "sentiment")) = [sig] ∧
      strContains sig.title "Buy Zone" ∧
      sig.confidence = (if fgValueOf fgScore20 ≤ 15 then "high" else "medium") :=
  (buildAlphaSignals_sentiment_cases fgScore20 none none [] none _ rfl).1 (by decide)

/-- Claim C6: every signal list the engine returns decomposes as sentiment
signals first (at most one), then whale (at most one), then narrative (at
most 3), then protocol (at most 3) — the rules' evaluation order. -/
theorem buildAlphaSignals_order_caps
    (fearGreed : Option FearGreedRaw) (trending : Option TrendingRaw)
    (topCoins : Option (List MarketCoin)) (defiList : List DeFiProtocol)
    (dexVolume : Option DexVolume) (l : List AlphaSignal)
    (h : buildAlphaSignals fearGreed trending topCoins (some defiList) dexVolume = Except.ok l) :
    ∃ s w n p, l = s ++ w ++ n ++ p ∧
      s.length ≤ 1 ∧ (∀ x ∈ s, x.type = "sentiment") ∧
      w.length ≤ 1 ∧ (∀ x ∈ w, x.type = "whale") ∧
      n.length ≤ 3 ∧ (∀ x ∈ n, x.type = "narrative") ∧
      p.length ≤ 3 ∧ (∀ x ∈ p, x.type = "protocol") := by
  rw [buildAlphaSignals_ok, Except.ok.injEq] at h
  exact ⟨_, _, _, _, h.symm, length_sentimentRule_le _,
    fun x hx => type_of_mem_sentimentRule hx,
    length_whaleRule_le _ _, fun x hx => type_of_mem_whaleRule hx,
    length_narrativeRule_le _, fun x hx => type_of_mem_narrativeRule hx,
    length_protocolRule_le _, fun x hx => type_of_mem_protocolRule hx⟩

/-- Claim C6 witness: the decomposition at a concrete input. -/
theorem buildAlphaSignals_order_caps_witness :
    ∃ s w n p, (sentimentRule fgScore20 ++ whaleRule primaryDown3 dexUp6 ++
        narrativeRule trendingFive ++ protocolRule []) = s ++ w ++ n ++ p ∧
      s.length ≤ 1 ∧ (∀ x ∈ s, x.type = "sentiment") ∧
      w.length ≤ 1 ∧ (∀ x ∈ w, x.type = "whale") ∧
      n.length ≤ 3 ∧ (∀ x ∈ n, x.type = "narrative") ∧
      p.length ≤ 3 ∧ (∀ x ∈ p, x.type = "protocol") :=
  buildAlphaSignals_order_caps fgScore20 trendingFive primaryDown3 [] dexUp6 _ rfl

/-- Claim C4: exactly one whale signal (confidence medium) is emitted iff the
DEX 24h volume change is strictly above 5 and the primary (index-0) market
asset's 24h price change is strictly below -2; when either condition fails or
either input is absent, no whale signal is emitted. -/
theorem buildAlphaSignals_whale_iff
    (fearGreed : Option FearGreedRaw) (trending : Option TrendingRaw)
    (topCoins : Option (List MarketCoin)) (defiList : List DeFiProtocol)
    (dexVolume : Option DexVolume) (l : List AlphaSignal)
    (h : buildAlphaSignals fearGreed trending topCoins (some defiList) dexVolume = Except.ok l) :
    ((∃ sig, l.filter (fun s => s.type == "whale") = [sig] ∧ sig.confidence = "medium") ↔
      ((∃ dv c, dexVolume = some dv ∧ dv.change24h = some c ∧ 5 < c) ∧
       (∃ coins a pc, topCoins = some coins ∧ coins.head? = some a ∧
          a.price_change_percentage_24h = some pc ∧ pc < -2))) ∧
    (¬ ((∃ dv c, dexVolume = some dv ∧ dv.change24h = some c ∧ 5 < c) ∧
        (∃ coins a pc, topCoins = some coins ∧ coins.head? = some a ∧
           a.price_change_percentage_24h = some pc ∧ pc < -2)) →
      l.filter (fun s => s.type == "whale") = []) := by
  rw [filter_whale_of_ok h]
  have hcond : (jsGtO (dexVolume.bind DexVolume.change24h) 5 &&
      jsLtO (primaryChange24h topCoins) (-2)) = true ↔
      ((∃ dv c, dexVolume = some dv ∧ dv.change24h = some c ∧ 5 < c) ∧
       (∃ coins a pc, topCoins = some coins ∧ coins.head? = some a ∧
          a.price_change_percentage_24h = some pc ∧ pc < -2)) := by
    rw [Bool.and_eq_true, jsGtO_eq_true, jsLtO_eq_true]
    constructor
    · rintro ⟨⟨c, hb, hc⟩, ⟨pc, hb2, hpc⟩⟩
      obtain ⟨dv, h1, h2⟩ := Option.bind_eq_some.mp hb
      obtain ⟨coins, a, h3, h4, h5⟩ := primaryChange24h_eq_some.mp hb2
      exact ⟨⟨dv, c, h1, h2, hc⟩, ⟨coins, a, pc, h3, h4, h5, hpc⟩⟩
    · rintro ⟨⟨dv, c, h1, h2, hc⟩, ⟨coins, a, pc, h3, h4, h5, hpc⟩⟩
      exact ⟨⟨c, Option.bind_eq_some.mpr ⟨dv, h1, h2⟩, hc⟩,
        ⟨pc, primaryChange24h_eq_some.mpr ⟨coins, a, h3, h4, h5⟩, hpc⟩⟩
  unfold whaleRule
  cases hb : (jsGtO (dexVolume.bind DexVolume.change24h) 5 &&
      jsLtO (primaryChange24h topCoins) (-2)) with
  | true =>
    have hr := hcond.mp hb
    rw [if_pos rfl]
    exact ⟨⟨fun _ => hr, fun _ => ⟨_, rfl, rfl⟩⟩, fun hn => absurd hr hn⟩
  | false =>
    have hr : ¬ ((∃ dv c, dexVolume = some dv ∧ dv.change24h = some c ∧ 5 < c) ∧
        (∃ coins a pc, topCoins = some coins ∧ coins.head? = some a ∧
           a.price_change_percentage_24h = some pc ∧ pc < -2)) := by
      intro hx
      rw [hcond.mpr hx] at hb
      cases hb
    rw [if_neg Bool.false_ne_true]
    exact ⟨⟨fun hsig => absurd hsig.choose_spec.1 (by simp), fun hx => absurd hx hr⟩,
      fun _ => rfl⟩

/-- Claim C4 witness: DEX change +6 with primary asset change -3 produces the
whale signal; the iff's hypotheses are discharged at these concrete values. -/
theorem buildAlphaSignals_whale_iff_witness :
    ∃ sig, ((sentimentRule fgScore20 ++ whaleRule primaryDown3 dexUp6 ++
        narrativeRule none ++ protocolRule []).filter (fun s => s.type == "whale")) = [sig] ∧
      sig.confidence = "medium" :=
  (buildAlphaSignals_whale_iff fgScore20 none primaryDown3 [] dexUp6 _ rfl).1.mpr
    ⟨⟨_, 6, rfl, rfl, by decide⟩,
     ⟨_, _, -3, rfl, rfl, rfl, by decide⟩⟩

/-- Claim C5: the engine evaluates only the first 3 trending assets, in
upstream order: each of those with 24h change strictly above 10 yields
exactly one narrative signal (confidence medium), the others yield nothing,
and coins at index 3 or beyond never influence the narrative signals. -/
theorem buildAlphaSignals_narrative_first3
    (fearGreed : Option FearGreedRaw) (trending trending2 : Option TrendingRaw)
    (topCoins : Option (List MarketCoin)) (defiList : List DeFiProtocol)
    (dexVolume : Option DexVolume) (l l2 : List AlphaSignal)
    (h : buildAlphaSignals fearGreed trending topCoins (some defiList) dexVolume = Except.ok l)
    (h2 : buildAlphaSignals fearGreed trending2 topCoins (some defiList) dexVolume = Except.ok l2)
    (hagree : (trendingCoinsOf trending).take 3 = (trendingCoinsOf trending2).take 3) :
    (l.filter (fun s => s.type == "narrative")).length =
      ((trendingCoinsOf trending).take 3).countP
        (fun c => jsGtO (trendingPriceChange c) 10) ∧
    (∀ sig ∈ l.filter (fun s => s.type == "narrative"), sig.confidence = "medium") ∧
    l.filter (fun s => s.type == "narrative") = l2.filter (fun s => s.type == "narrative") := by
  rw [filter_narrative_of_ok h, filter_narrative_of_ok h2]
  refine ⟨?_, ?_, ?_⟩
  · unfold narrativeRule
    exact length_filterMap_narrative _
  · intro sig hs
    exact confidence_of_mem_narrativeRule hs
  · unfold narrativeRule
    rw [hagree]

/-- Claim C5 witness: on the spec's example (changes 12, 8, 15, 20, 5), the
narrative count equals the qualifying count among the first three, all
narrative signals are medium, and dropping the coins beyond index 2 leaves
the narrative signals unchanged. -/
theorem buildAlphaSignals_narrative_first3_witness :
    ((sentimentRule fgScore20 ++ whaleRule none none ++ narrativeRule trendingFive ++
        protocolRule []).filter (fun s => s.type == "narrative")).length =
      ((trendingCoinsOf trendingFive).take 3).countP
        (fun c => jsGtO (trendingPriceChange c) 10) ∧
    (∀ sig ∈ (sentimentRule fgScore20 ++ whaleRule none none ++ narrativeRule trendingFive ++
        protocolRule []).filter (fun s => s.type == "narrative"),
      sig.confidence = "medium") ∧
    (sentimentRule fgScore20 ++ whaleRule none none ++ narrativeRule trendingFive ++
        protocolRule []).filter (fun s => s.type == "narrative") =
      (sentimentRule fgScore20 ++ whaleRule none none ++ narrativeRule trendingFirstThree ++
        protocolRule []).filter (fun s => s.type == "narrative") :=
  buildAlphaSignals_narrative_first3 fgScore20 trendingFive trendingFirstThree none [] none
    _ _ rfl rfl (by decide)

/-- Claim C7: DeFi-protocol normalization returns at most 10 entries, every
returned entry has strictly positive total-value-locked, and the entries are
sorted in descending order of total-value-locked. -/
theorem fetchTopDeFiTransform_spec (protocols : List RawProtocol) :
    (fetchTopDeFiTransform protocols).length ≤ 10 ∧
    (∀ p ∈ fetchTopDeFiTransform protocols, ∃ t, DeFiProtocol.tvl p = some t ∧ 0 < t) ∧
    List.Pairwise (fun a b => (DeFiProtocol.tvl b).getD 0 ≤ (DeFiProtocol.tvl a).getD 0)
      (fetchTopDeFiTransform protocols) := by
  unfold fetchTopDeFiTransform
  refine ⟨?_, ?_, ?_⟩
  · rw [List.length_map]
    exact List.length_take_le _ _
  · intro p hp
    obtain ⟨q, hq, hqp⟩ := List.mem_map.mp hp
    have hq2 : q ∈ protocols.filter (fun p => jsGtO p.tvl 0) :=
      (List.mergeSort_perm _ _).mem_iff.mp (List.mem_of_mem_take hq)
    obtain ⟨t, ht, h0⟩ := jsGtO_eq_true.mp (List.mem_filter.mp hq2).2
    subst hqp
    exact ⟨t, ht, h0⟩
  · have hs := @List.sorted_mergeSort RawProtocol
      (fun a b => decide (tvlOr0 b ≤ tvlOr0 a))
      (fun a b c hab hbc => decide_eq_true
        (le_trans (of_decide_eq_true hbc) (of_decide_eq_true hab)))
      (fun a b => by
        rcases le_total (tvlOr0 b) (tvlOr0 a) with hle | hle <;> simp [hle])
      (protocols.filter (fun p => jsGtO p.tvl 0))
    have htake := List.Pairwise.sublist (List.take_sublist 10 _) hs
    rw [List.pairwise_map]
    exact htake.imp (fun hab => of_decide_eq_true hab)

/-- Claim C1 (code bug): the Signal Engine is not total — with every input
absent except that the DeFi list is `null` (exactly what the daily-alpha
handler passes when the defillama source is deselected, e.g.
`sources = ["feargreed"]`), `defi.slice(0, 3)` throws a `TypeError` and the
digest operation fails instead of returning an ordered signal list. -/
theorem buildAlphaSignals_null_defi_raises :
    buildAlphaSignals none none none none none = Except.error nullDefiTypeError ∧
    dailyAlphaHandler ["feargreed"] fetchesAllOkMinimal = Except.error nullDefiTypeError :=
  ⟨rfl, rfl⟩

/-- Claim C2 counterexample: with every source selected and only the
sentiment upstream failing, the digest operation does not return a succeeded
result with the other sections populated — the rejection propagates through
`Promise.all` and the whole operation fails. -/
theorem dailyAlpha_sentiment_failure_fails_operation :
    dailyAlphaHandler ["coingecko", "defillama", "feargreed"] fetchesSentimentDown =
      Except.error "sentiment upstream unavailable" := rfl

/-- Claim C2 amended: in every multi-source operation (digest,
sentiment-index, trending, defi-stats) a failure of an individual upstream
source is not caught at the Source Client boundary: it propagates and fails
the whole operation instead of degrading that source's contribution.  For
the digest this holds for whichever of its five fetches fails (when its
source group is selected); for sentiment-index and trending the one fetch's
rejection is the handler's rejection; for defi-stats either of its two
fetches rejects the `Promise.all` and with it the handler. -/
theorem upstream_failure_fails_operations :
    (∀ (sources : List String) (f : SourceFetches) (e : String),
      ((sources.contains "feargreed" = true ∧ f.fearGreed = Except.error e) ∨
       (sources.contains "coingecko" = true ∧
         (f.trending = Except.error e ∨ f.topCoins = Except.error e)) ∨
       (sources.contains "defillama" = true ∧
         (f.defi = Except.error e ∨ f.dexVolume = Except.error e))) →
      ∃ msg, dailyAlphaHandler sources f = Except.error msg) ∧
    (∀ e : String, fearGreedEndpoint (Except.error e) = Except.error e) ∧
    (∀ e : String, trendingEndpoint (Except.error e) = Except.error e) ∧
    (∀ (e : String) (dx : Except String DexVolumeRaw),
      defiStatsEndpoint (Except.error e) dx = Except.error e) ∧
    (∀ (e : String) (ps : List RawProtocol),
      defiStatsEndpoint (Except.ok ps) (Except.error e) = Except.error e) := by
  refine ⟨?_, fun e => rfl, fun e => rfl, fun e dx => rfl, fun e ps => rfl⟩
  intro sources f e h
  unfold dailyAlphaHandler
  rcases h with ⟨hsel, hf⟩ | ⟨hsel, hf | hf⟩ | ⟨hsel, hf | hf⟩
  · rw [hsel, hf]
    exact ⟨e, rfl⟩
  · rw [hsel, hf]
    cases hc1 : sources.contains "feargreed" <;> cases hv1 : f.fearGreed <;>
      exact ⟨_, rfl⟩
  · rw [hsel, hf]
    cases hc1 : sources.contains "feargreed" <;> cases hv1 : f.fearGreed <;>
      cases hv2 : f.trending <;> exact ⟨_, rfl⟩
  · rw [hsel, hf]
    cases hc1 : sources.contains "feargreed" <;> cases hv1 : f.fearGreed <;>
      cases hc2 : sources.contains "coingecko" <;> cases hv2 : f.trending <;>
      cases hv3 : f.topCoins <;> exact ⟨_, rfl⟩
  · rw [hsel, hf]
    cases hc1 : sources.contains "feargreed" <;> cases hv1 : f.fearGreed <;>
      cases hc2 : sources.contains "coingecko" <;> cases hv2 : f.trending <;>
      cases hv3 : f.topCoins <;> cases hv4 : f.defi <;> exact ⟨_, rfl⟩

/-- Claim C2 amended witness: a failing trending upstream (a source other
than the first in the fan-out) fails the digest with every source
selected. -/
theorem upstream_failure_fails_operations_witness :
    ∃ msg, dailyAlphaHandler ["coingecko", "defillama", "feargreed"] fetchesTrendingDown =
      Except.error msg :=
  upstream_failure_fails_operations.1 ["coingecko", "defillama", "feargreed"]
    fetchesTrendingDown "trending upstream unavailable"
    (Or.inr (Or.inl ⟨rfl, Or.inl rfl⟩))

/-- Claim C8: when the token lookup reports a missing resource, the
token-intel operation returns a structured whole-operation failure: status
"failed", an error naming the looked-up token id, and the corrective
suggestion about the expected id format. -/
theorem tokenIntel_not_found_failure (inputToken : Option String) :
    tokenIntelStatus (tokenIntelHandler inputToken none) = "failed" ∧
    ∃ payload, tokenIntelHandler inputToken none = TokenIntelResult.failed payload ∧
      strContains payload.error (effectiveTokenId inputToken) ∧
      payload.suggestion = "Use CoinGecko token ID (e.g., bitcoin, ethereum)" := by
  refine ⟨rfl, ⟨_, rfl, ?_, rfl⟩⟩
  exact ⟨("Token " : String).data, (" not found" : String).data, by
    simp [String.data_append]⟩

/-- Claim C9 counterexample: the sentiment-index operation defaults the
absent qualitative class to "Unknown", not "Neutral". -/
theorem fearGreed_class_default_not_neutral :
    (fearGreedHandlerOutput { data := none }).current.classification = "Unknown" ∧
    (fearGreedHandlerOutput { data := none }).current.classification ≠ "Neutral" :=
  ⟨rfl, by decide⟩

/-- Claim C9 amended: an absent sentiment score defaults to 50 in all three
readers (Signal Engine, sentiment-index operation, digest market-context);
the absent qualitative class defaults to "Neutral" only in the Signal
Engine, while the sentiment-index operation and the digest market-context
default it to "Unknown". -/
theorem sentiment_defaults_by_operation :
    fgValueOf none = 50 ∧ fgClassOf none = "Neutral" ∧
    (∀ cls ts, fgValueOf
      (some { data := some [{ value := none, value_classification := cls, timestamp := ts }] })
        = 50) ∧
    (∀ topCoins dexVolume, (marketContextOf none topCoins dexVolume).fearGreedIndex = 50 ∧
      (marketContextOf none topCoins dexVolume).fearGreedClass = "Unknown") ∧
    (fearGreedHandlerOutput { data := none }).current.value = 50 ∧
    (fearGreedHandlerOutput { data := none }).current.classification = "Unknown" :=
  ⟨rfl, rfl, fun _ _ => rfl, fun _ _ => ⟨rfl, rfl⟩, rfl, rfl⟩

/-- Claim C10: the effective token-intel lookup id is the lowercased supplied
token when present and non-empty, and the literal "bitcoin" when the token
field is absent or empty. -/
theorem effectiveTokenId_spec (t : String) (h : t ≠ "") :
    effectiveTokenId (some t) = jsToLowerCase t ∧
    effectiveTokenId none = "bitcoin" ∧
    effectiveTokenId (some "") = "bitcoin" := by
  refine ⟨?_, by decide, by decide⟩
  simp [effectiveTokenId, jsOrStr, h]

/-- Claim C10 witness: concrete instance at a mixed-case token. -/
theorem effectiveTokenId_spec_witness :
    effectiveTokenId (some "BitCoin") = jsToLowerCase "BitCoin" ∧
    effectiveTokenId none = "bitcoin" ∧
    effectiveTokenId (some "") = "bitcoin" :=
  effectiveTokenId_spec "BitCoin" (by decide)
